import Mathlib

/-!
Verification development for the VSPCA repository.

The Python sources are shallowly embedded: pandas `Series`/DataFrame columns
become `List ℚ` (elementwise arithmetic becomes `List.zipWith` / `List.map`),
Python's float arithmetic is modelled over `ℚ`, file reads become function
arguments, file writes become values returned in a list, and raised
exceptions become `Except`/`Option` error values.
-/

namespace VSPCA

/-! ## Python numeric primitives -/

/-- Python's `%` operator on numbers: `x % m = x - m * floor (x / m)`
(result has the sign of the divisor). -/
def pymod (x m : ℚ) : ℚ := x - m * ⌊x / m⌋

/-- Round to the nearest integer, ties to even — the rounding used by
Python's builtin `round`. -/
def roundHalfEven (x : ℚ) : ℤ :=
  let f : ℤ := ⌊x⌋
  let r : ℚ := x - f
  if r < 1/2 then f
  else if 1/2 < r then f + 1
  else if f % 2 = 0 then f else f + 1

/-- Python's `round(x, 3)`: round to 3 decimal places, ties to even. -/
def round3 (x : ℚ) : ℚ := (roundHalfEven (x * 1000) : ℚ) / 1000

/-! ## SpectraBuilder.py — data model

A pandas wavelength/flux table read from a binned stellar-model file. -/

structure StellarModel where
  wavelength : List ℚ
  flux : List ℚ
deriving Repr, DecidableEq

/-- The working DataFrame `allModels.allModelSpectra`.  The four static
columns are set at startup; the four dynamic columns start absent (empty)
and are assigned by `calculate_combined_spectrum` / `calculate_planet_flux`. -/
structure AllModelSpectra where
  wavelength : List ℚ
  photflux : List ℚ
  spotflux : List ℚ
  facflux : List ℚ
  sumflux : List ℚ := []
  sumfluxTowardsPlanet : List ℚ := []
  planetReflection : List ℚ := []
  planetThermal : List ℚ := []
deriving Repr, DecidableEq

/-- One row of the surface-coverage dictionary:
`{'phot': …, 'spot': …, 'fac': …}`. -/
structure Percentages where
  phot : ℚ
  spot : ℚ
  fac : ℚ
deriving Repr, DecidableEq

/-- PSG combined-spectrum file (`PSGCombinedSpectra/phase*.txt`),
columns `wavelength, total, stellar, planet`. -/
structure PSGReflModel where
  wavelength : List ℚ
  total : List ℚ
  stellar : List ℚ
  planet : List ℚ
deriving Repr, DecidableEq

/-- PSG thermal-spectrum file (`PSGThermalSpectra/phase*.txt`),
columns `wavelength, total, planet`. -/
structure PSGThermModel where
  wavelength : List ℚ
  total : List ℚ
  planet : List ℚ
deriving Repr, DecidableEq

/-! Elementwise pandas `Series` arithmetic. -/

/-- `Series + Series` (aligned index). -/
def seriesAdd (xs ys : List ℚ) : List ℚ := List.zipWith (· + ·) xs ys

/-- `Series * scalar`. -/
def seriesScale (xs : List ℚ) (c : ℚ) : List ℚ := xs.map (· * c)

/-- `SpectraBuilder.calculate_combined_spectrum`: assigns the `sumflux`
and `sumfluxTowardsPlanet` columns as coverage-weighted linear
combinations of the three static flux columns. -/
def calculate_combined_spectrum (s : AllModelSpectra)
    (percentagesDict percentagesDictTowardsPlanet : Percentages) :
    AllModelSpectra :=
  let photFrac := percentagesDict.phot
  let spotFrac := percentagesDict.spot
  let facFrac := percentagesDict.fac
  let photFracTowardsPlanet := percentagesDictTowardsPlanet.phot
  let spotFracTowardsPlanet := percentagesDictTowardsPlanet.spot
  let facFracTowardsPlanet := percentagesDictTowardsPlanet.fac
  { s with
    sumflux :=
      seriesAdd (seriesAdd (seriesScale s.photflux photFrac)
        (seriesScale s.spotflux spotFrac)) (seriesScale s.facflux facFrac)
    sumfluxTowardsPlanet :=
      seriesAdd (seriesAdd (seriesScale s.photflux photFracTowardsPlanet)
        (seriesScale s.spotflux spotFracTowardsPlanet))
        (seriesScale s.facflux facFracTowardsPlanet) }

/-- `SpectraBuilder.calculate_planet_flux`: rescales PSG's reflected flux
by the variable star's planet-facing flux and stores the thermal column.
(ℚ division by zero yields 0 where pandas would give `inf`; no claim
depends on those values.) -/
def calculate_planet_flux (s : AllModelSpectra)
    (psgRefl : PSGReflModel) (psgTherm : PSGThermModel) : AllModelSpectra :=
  let planetReflectionOnly :=
    List.zipWith (fun a b => |a - b|) psgRefl.planet psgTherm.planet
  let planetFluxFraction :=
    List.zipWith (· / ·) planetReflectionOnly psgRefl.stellar
  let adjustedReflectionFlux :=
    List.zipWith (· * ·) planetFluxFraction s.sumfluxTowardsPlanet
  { s with
    planetReflection := seriesAdd adjustedReflectionFlux psgTherm.planet
    planetThermal := psgTherm.planet }

/-! ## Claim theorems (flux combination) -/

/-- **C1.** For three stellar models on one wavelength grid and coverage
fractions `(p, s, f)` with `p+s+f = 1` (and likewise toward the planet),
the `sumflux` column equals, at each wavelength index `k`,
`p·photflux + s·spotflux + f·facflux`, and `sumfluxTowardsPlanet` is the
same linear combination with the planet-facing fractions. -/
theorem combined_spectrum_linear (s : AllModelSpectra)
    (pd pdp : Percentages) (k : ℕ) (a b c : ℚ)
    (ha : s.photflux[k]? = some a) (hb : s.spotflux[k]? = some b)
    (hc : s.facflux[k]? = some c)
    (hpd : pd.phot + pd.spot + pd.fac = 1)
    (hpdp : pdp.phot + pdp.spot + pdp.fac = 1) :
    (calculate_combined_spectrum s pd pdp).sumflux[k]? =
      some (pd.phot * a + pd.spot * b + pd.fac * c) ∧
    (calculate_combined_spectrum s pd pdp).sumfluxTowardsPlanet[k]? =
      some (pdp.phot * a + pdp.spot * b + pdp.fac * c) := by
  constructor <;>
    simp [calculate_combined_spectrum, seriesAdd, seriesScale,
      List.getElem?_zipWith, List.getElem?_map, ha, hb, hc] <;>
    ring

/-- Witness for `combined_spectrum_linear` at a concrete input. -/
theorem combined_spectrum_linear_witness :
    (calculate_combined_spectrum
        ⟨[1], [10], [20], [40], [], [], [], []⟩
        ⟨1/2, 1/4, 1/4⟩ ⟨0, 1, 0⟩).sumflux[0]? =
      some ((1/2) * 10 + (1/4) * 20 + (1/4) * 40) ∧
    (calculate_combined_spectrum
        ⟨[1], [10], [20], [40], [], [], [], []⟩
        ⟨1/2, 1/4, 1/4⟩ ⟨0, 1, 0⟩).sumfluxTowardsPlanet[0]? =
      some (0 * 10 + 1 * 20 + 0 * 40) :=
  combined_spectrum_linear ⟨[1], [10], [20], [40], [], [], [], []⟩
    ⟨1/2, 1/4, 1/4⟩ ⟨0, 1, 0⟩ 0 10 20 40
    rfl rfl rfl (by norm_num) (by norm_num)

/-! ## SpectraBuilder.py — per-exposure phase geometry (`__main__` loop) -/

/-- The fields of `read_info.ParamModel` used by `SpectraBuilder.py`
(consumed contract; constructed once, immutable). -/
structure Params where
  phase1 : ℚ
  delta_phase_planet : ℚ
  delta_phase_star : ℚ
  total_images : ℕ
  erg_sTOwatts : ℚ
  cm2TOm2 : ℚ
  cmTOum : ℚ
  distanceFluxCorrection : ℚ
deriving Repr, DecidableEq

/-- The per-exposure scalars computed by one iteration of the
`SpectraBuilder.__main__` loop (lines 115–187), in evaluation order. -/
structure ExposureCalc where
  /-- `allModels.planetPhase` as first assigned (line 115). -/
  planetPhaseRaw : ℚ
  /-- `allModels.starPhase` (line 120). -/
  starPhase : ℚ
  /-- `allModels.starPhaseFacingPlanet` as first assigned (line 141),
  computed from the raw (unsubstituted) planet phase. -/
  starPhaseFacingPlanet0 : ℚ
  /-- `allModels.planetPhase` after the 180→182 and 185→186
  substitutions (lines 153–160): the phase whose external files are read. -/
  planetPhaseFile : ℚ
  /-- `allModels.starPhaseFacingPlanet` after the
  `== total_images + 1` reset (lines 163–164). -/
  starPhaseFacingPlanet : ℚ
  /-- `tempPhase` (line 184): observer-side coverage-dictionary key. -/
  tempPhase : ℚ
  /-- `tempPhaseFacingPlanet` (lines 185–187): planet-side key. -/
  tempPhaseFacingPlanet : ℚ
deriving Repr, DecidableEq

/-- Straight-line embedding of the phase-geometry part of one
`SpectraBuilder.__main__` loop iteration for exposure `index`. -/
def computeExposure (P : Params) (index : ℕ) : ExposureCalc :=
  let planetPhase := pymod (P.phase1 + P.delta_phase_planet * index) 360
  let starPhase := pymod (P.delta_phase_star * index) 360
  let starPhaseFacingPlanet0 := pymod (180 - starPhase + planetPhase) 360
  let planetPhase1 := if planetPhase = 180 then 182 else planetPhase
  let planetPhase2 := if planetPhase1 = 185 then 186 else planetPhase1
  let starPhaseFacingPlanet :=
    if starPhaseFacingPlanet0 = (P.total_images : ℚ) + 1 then 0
    else starPhaseFacingPlanet0
  let tempPhase := pymod (round3 starPhase) 360
  let tempPhaseFacingPlanet0 := round3 starPhaseFacingPlanet
  let tempPhaseFacingPlanet :=
    if tempPhaseFacingPlanet0 = 360 then 0 else tempPhaseFacingPlanet0
  { planetPhaseRaw := planetPhase
    starPhase := starPhase
    starPhaseFacingPlanet0 := starPhaseFacingPlanet0
    planetPhaseFile := planetPhase2
    starPhaseFacingPlanet := starPhaseFacingPlanet
    tempPhase := tempPhase
    tempPhaseFacingPlanet := tempPhaseFacingPlanet }

/-! ## SpectraBuilder.py — whole-pipeline model

File reads are passed in as functions (phase ↦ table contents); the
surface-coverage dictionary is a partial map (`none` = `KeyError`); the
per-exposure `to_csv` writes are collected in the returned list, paired
with the exposure index of the written `phase{index}.csv`.  The second
component is `some message` when the run aborts with an exception (the
writes performed before the abort are kept, as on disk). -/

structure PipelineInputs where
  photModel : StellarModel
  spotModel : StellarModel
  facModel : StellarModel
  surfaceCoverageDict : ℚ → Option Percentages
  psgReflFiles : ℚ → PSGReflModel
  psgThermFiles : ℚ → PSGThermModel
  params : Params

/-- The per-exposure loop (`for index in range(Params.total_images)`),
running `n` remaining iterations starting at exposure `idx`, threading
the mutable `allModelSpectra` working table `st`. -/
def pipelineLoop (inp : PipelineInputs) :
    ℕ → ℕ → AllModelSpectra → List (ℕ × AllModelSpectra) × Option String
  | 0, _, _ => ([], none)
  | n + 1, idx, st =>
    let e := computeExposure inp.params idx
    match inp.surfaceCoverageDict e.tempPhase,
        inp.surfaceCoverageDict e.tempPhaseFacingPlanet with
    | some pd, some pdp =>
      let st1 := calculate_combined_spectrum st pd pdp
      let st2 := calculate_planet_flux st1
        (inp.psgReflFiles e.planetPhaseFile)
        (inp.psgThermFiles e.planetPhaseFile)
      let rest := pipelineLoop inp n (idx + 1) st2
      ((idx, st2) :: rest.1, rest.2)
    | _, _ => ([], some "KeyError")

/-- `SpectraBuilder.__main__`: startup (wavelength-grid validation,
working-table assembly, one-time unit conversion) followed by the
per-exposure loop. -/
def runPipeline (inp : PipelineInputs) :
    List (ℕ × AllModelSpectra) × Option String :=
  if inp.photModel.wavelength = inp.spotModel.wavelength ∧
      inp.photModel.wavelength = inp.facModel.wavelength then
    let conversion := inp.params.erg_sTOwatts * inp.params.cm2TOm2 *
      inp.params.cmTOum * inp.params.distanceFluxCorrection
    let base : AllModelSpectra :=
      { wavelength := inp.photModel.wavelength
        photflux := seriesScale inp.photModel.flux conversion
        spotflux := seriesScale inp.spotModel.flux conversion
        facflux := seriesScale inp.facModel.flux conversion }
    pipelineLoop inp inp.params.total_images 0 base
  else
    ([], some "The star, spot, and faculae spectra should be on the same wavelength scale, and currently are not.")

/-- **C2.** If an exposure's raw `planetPhase`
(`(phase1 + delta_phase_planet·i) mod 360`) is exactly `180`, the external
files are read for phase `182`; if it is exactly `185`, for phase `186`;
and `starPhaseFacingPlanet` is computed from the unsubstituted
`planetPhase` (the substitution only affects the file phase). -/
theorem phase_substitution (P : Params) (i : ℕ) :
    (computeExposure P i).planetPhaseRaw =
      pymod (P.phase1 + P.delta_phase_planet * i) 360 ∧
    ((computeExposure P i).planetPhaseRaw = 180 →
      (computeExposure P i).planetPhaseFile = 182) ∧
    ((computeExposure P i).planetPhaseRaw = 185 →
      (computeExposure P i).planetPhaseFile = 186) ∧
    (computeExposure P i).starPhaseFacingPlanet0 =
      pymod (180 - (computeExposure P i).starPhase +
        (computeExposure P i).planetPhaseRaw) 360 := by
  refine ⟨rfl, fun h => ?_, fun h => ?_, rfl⟩ <;>
    · simp only [computeExposure] at h ⊢
      rw [h]
      norm_num

/-- Witness for `phase_substitution`: with `phase1 = 180` (resp. `185`)
and zero phase increments, exposure 0 has raw phase 180 (resp. 185). -/
theorem phase_substitution_witness :
    (computeExposure ⟨180, 0, 0, 1, 1, 1, 1, 1⟩ 0).planetPhaseFile = 182 ∧
    (computeExposure ⟨185, 0, 0, 1, 1, 1, 1, 1⟩ 0).planetPhaseFile = 186 :=
  ⟨(phase_substitution ⟨180, 0, 0, 1, 1, 1, 1, 1⟩ 0).2.1
      (by simp [computeExposure, pymod]; norm_num),
   (phase_substitution ⟨185, 0, 0, 1, 1, 1, 1, 1⟩ 0).2.2.1
      (by simp [computeExposure, pymod]; norm_num)⟩

/-- **C8.** If the computed `starPhaseFacingPlanet` equals exactly
`total_images + 1` it is reset to `0` before the surface-coverage lookup,
and otherwise it is left unchanged. -/
theorem star_phase_boundary_wrap (P : Params) (i : ℕ) :
    ((computeExposure P i).starPhaseFacingPlanet0 =
        (P.total_images : ℚ) + 1 →
      (computeExposure P i).starPhaseFacingPlanet = 0) ∧
    ((computeExposure P i).starPhaseFacingPlanet0 ≠
        (P.total_images : ℚ) + 1 →
      (computeExposure P i).starPhaseFacingPlanet =
        (computeExposure P i).starPhaseFacingPlanet0) := by
  constructor <;>
    · intro h
      simp only [computeExposure] at h ⊢
      simp [h]

/-- Witness for `star_phase_boundary_wrap`: with `phase1 = -178` and
`total_images = 1`, exposure 0 has `starPhaseFacingPlanet0 = 2 = T + 1`,
which is reset to `0`; with `phase1 = 180` it is `0 ≠ 2` and kept. -/
theorem star_phase_boundary_wrap_witness :
    (computeExposure ⟨-178, 0, 0, 1, 1, 1, 1, 1⟩ 0).starPhaseFacingPlanet
        = 0 ∧
    (computeExposure ⟨180, 0, 0, 1, 1, 1, 1, 1⟩ 0).starPhaseFacingPlanet =
      (computeExposure ⟨180, 0, 0, 1, 1, 1, 1, 1⟩
        0).starPhaseFacingPlanet0 :=
  ⟨(star_phase_boundary_wrap ⟨-178, 0, 0, 1, 1, 1, 1, 1⟩ 0).1
      (by simp [computeExposure, pymod]; norm_num),
   (star_phase_boundary_wrap ⟨180, 0, 0, 1, 1, 1, 1, 1⟩ 0).2
      (by simp [computeExposure, pymod]; norm_num)⟩

/-- **C5.** If the photosphere, spot and faculae tables do not all share
an identical wavelength grid, the pipeline aborts at startup with the
wavelength-scale `ValueError` and performs no file writes (the written
list is empty). -/
theorem grid_mismatch_aborts (inp : PipelineInputs)
    (h : ¬(inp.photModel.wavelength = inp.spotModel.wavelength ∧
      inp.photModel.wavelength = inp.facModel.wavelength)) :
    runPipeline inp =
      ([], some "The star, spot, and faculae spectra should be on the same wavelength scale, and currently are not.") := by
  simp [runPipeline, h]

/-- Witness for `grid_mismatch_aborts` at a concrete mismatched input. -/
theorem grid_mismatch_aborts_witness :
    runPipeline
      ⟨⟨[1], [0]⟩, ⟨[2], [0]⟩, ⟨[1], [0]⟩, fun _ => none,
        fun _ => ⟨[], [], [], []⟩, fun _ => ⟨[], [], []⟩,
        ⟨0, 0, 0, 1, 1, 1, 1, 1⟩⟩ =
      ([], some "The star, spot, and faculae spectra should be on the same wavelength scale, and currently are not.") :=
  grid_mismatch_aborts
    ⟨⟨[1], [0]⟩, ⟨[2], [0]⟩, ⟨[1], [0]⟩, fun _ => none,
      fun _ => ⟨[], [], [], []⟩, fun _ => ⟨[], [], []⟩,
      ⟨0, 0, 0, 1, 1, 1, 1, 1⟩⟩
    (by intro hc; exact absurd hc.1 (by norm_num))

/-- **C9.** The flux-combination pipeline is a deterministic function of
its inputs: two runs on identical input files and parameters produce
identical per-exposure output tables (no randomness anywhere). -/
theorem pipeline_deterministic (inp inp' : PipelineInputs)
    (h : inp = inp') : runPipeline inp = runPipeline inp' := by
  rw [h]

/-- Witness for `pipeline_deterministic` at a concrete input. -/
theorem pipeline_deterministic_witness :
    runPipeline
      ⟨⟨[1], [0]⟩, ⟨[1], [0]⟩, ⟨[1], [0]⟩, fun _ => some ⟨1, 0, 0⟩,
        fun _ => ⟨[], [], [], []⟩, fun _ => ⟨[], [], []⟩,
        ⟨0, 0, 0, 1, 1, 1, 1, 1⟩⟩ =
    runPipeline
      ⟨⟨[1], [0]⟩, ⟨[1], [0]⟩, ⟨[1], [0]⟩, fun _ => some ⟨1, 0, 0⟩,
        fun _ => ⟨[], [], [], []⟩, fun _ => ⟨[], [], []⟩,
        ⟨0, 0, 0, 1, 1, 1, 1, 1⟩⟩ :=
  pipeline_deterministic _ _ rfl

/-- The steps inside one loop iteration never touch the four static
columns of the working table. -/
theorem pipelineLoop_static_columns (inp : PipelineInputs) :
    ∀ (n idx : ℕ) (st : AllModelSpectra),
      ∀ pr ∈ (pipelineLoop inp n idx st).1,
        pr.2.wavelength = st.wavelength ∧ pr.2.photflux = st.photflux ∧
        pr.2.spotflux = st.spotflux ∧ pr.2.facflux = st.facflux := by
  intro n
  induction n with
  | zero => intro idx st pr hpr; simp [pipelineLoop] at hpr
  | succ n ih =>
    intro idx st pr hpr
    rw [pipelineLoop] at hpr
    rcases hcov : inp.surfaceCoverageDict (computeExposure inp.params
        idx).tempPhase with _ | pd <;>
      rcases hcov' : inp.surfaceCoverageDict (computeExposure inp.params
          idx).tempPhaseFacingPlanet with _ | pdp <;>
      simp [hcov, hcov'] at hpr
    rcases hpr with hpr | hpr
    · subst hpr
      exact ⟨rfl, rfl, rfl, rfl⟩
    · have h2 := ih (idx + 1) _ pr hpr
      simpa [calculate_planet_flux, calculate_combined_spectrum] using h2

/-- **C10.** Every persisted per-exposure table carries the same four
static columns: `wavelength` is the photosphere model's grid, and
`photflux`/`spotflux`/`facflux` are the startup unit-converted fluxes —
the loop only writes the four dynamic columns, so these are identical
across all exposure indices. -/
theorem output_static_columns (inp : PipelineInputs)
    (pr : ℕ × AllModelSpectra) (hpr : pr ∈ (runPipeline inp).1) :
    pr.2.wavelength = inp.photModel.wavelength ∧
    pr.2.photflux = seriesScale inp.photModel.flux
      (inp.params.erg_sTOwatts * inp.params.cm2TOm2 *
        inp.params.cmTOum * inp.params.distanceFluxCorrection) ∧
    pr.2.spotflux = seriesScale inp.spotModel.flux
      (inp.params.erg_sTOwatts * inp.params.cm2TOm2 *
        inp.params.cmTOum * inp.params.distanceFluxCorrection) ∧
    pr.2.facflux = seriesScale inp.facModel.flux
      (inp.params.erg_sTOwatts * inp.params.cm2TOm2 *
        inp.params.cmTOum * inp.params.distanceFluxCorrection) := by
  rw [runPipeline] at hpr
  by_cases hgrid : inp.photModel.wavelength = inp.spotModel.wavelength ∧
      inp.photModel.wavelength = inp.facModel.wavelength
  · rw [if_pos hgrid] at hpr
    exact pipelineLoop_static_columns inp _ 0 _ pr hpr
  · rw [if_neg hgrid] at hpr
    simp at hpr

/-- Witness for `output_static_columns`: a one-exposure run on a trivial
grid, whose single output table is computed explicitly. -/
theorem output_static_columns_witness :
    (0, (⟨[1], [0], [0], [0], [0], [0], [], []⟩ : AllModelSpectra)).2.wavelength =
      [(1 : ℚ)] ∧
    (0, (⟨[1], [0], [0], [0], [0], [0], [], []⟩ : AllModelSpectra)).2.photflux =
      seriesScale [0] (1 * 1 * 1 * 1) ∧
    (0, (⟨[1], [0], [0], [0], [0], [0], [], []⟩ : AllModelSpectra)).2.spotflux =
      seriesScale [0] (1 * 1 * 1 * 1) ∧
    (0, (⟨[1], [0], [0], [0], [0], [0], [], []⟩ : AllModelSpectra)).2.facflux =
      seriesScale [0] (1 * 1 * 1 * 1) :=
  output_static_columns
    ⟨⟨[1], [0]⟩, ⟨[1], [0]⟩, ⟨[1], [0]⟩, fun _ => some ⟨1, 0, 0⟩,
      fun _ => ⟨[], [], [], []⟩, fun _ => ⟨[], [], []⟩,
      ⟨0, 0, 0, 1, 1, 1, 1, 1⟩⟩
    (0, ⟨[1], [0], [0], [0], [0], [0], [], []⟩)
    (by
      simp [runPipeline, pipelineLoop, calculate_combined_spectrum,
        calculate_planet_flux, seriesAdd, seriesScale])

/-! ## VSPEC/analysis.py — PhaseAnalyzer

astropy units: the phase column is tagged `deg` (angular degrees); the
constant added by the unwrap loop is written `360*u.deg_C` in the source —
`deg_C` is degrees *Celsius*, a temperature unit.  Adding quantities of
incompatible physical types raises `UnitConversionError` in astropy, which
the embedding models with `Except`. -/

/-- The two astropy units appearing in `PhaseAnalyzer.__init__`'s
unwrap loop: angular degrees (`u.deg`) and Celsius (`u.deg_C`). -/
inductive AstropyUnit where
  | deg
  | degC
deriving DecidableEq, Repr

/-- Add a scalar quantity (`incUnit`, `inc`) to an element of a quantity
array of unit `arrUnit`: astropy converts the increment to the array's
unit, raising `UnitConversionError` when the units are incompatible
(an angle and a temperature never are). -/
def quantityAdd (arrUnit : AstropyUnit) (x : ℚ)
    (incUnit : AstropyUnit) (inc : ℚ) : Except String ℚ :=
  if incUnit = arrUnit then Except.ok (x + inc)
  else Except.error "UnitConversionError: deg_C and deg are not convertible"

/-- The inner `while self.unique_phase[i] > self.unique_phase[i+1]` loop
of `PhaseAnalyzer.__init__`, acting on the `deg`-tagged phase array with
body `self.unique_phase[i+1] += 360*u.deg_C`.  Because adding the Celsius
increment to a degree-valued element always raises, the body never
completes an iteration: the loop either does not run (condition already
false) or raises on its first pass, so no recursive call is reachable. -/
def uniquePhaseBump (pred cur : ℚ) : Except String ℚ :=
  if pred > cur then
    match h : quantityAdd AstropyUnit.deg cur AstropyUnit.degC 360 with
    | Except.error e => Except.error e
    | Except.ok _ => by simp [quantityAdd] at h
  else Except.ok cur

/-- The outer `for i in range(len(self.unique_phase) - 1)` walk of
`PhaseAnalyzer.__init__` (lines 29–31), threading each updated element
into the next comparison. -/
def uniquePhaseWalk : List ℚ → Except String (List ℚ)
  | [] => Except.ok []
  | [x] => Except.ok [x]
  | x :: y :: rest => do
    let y' ← uniquePhaseBump x y
    let tail ← uniquePhaseWalk (y' :: rest)
    pure (x :: tail)
termination_by l => l.length
decreasing_by simp

/-- Modelled from the spec: the unwrap walk as documented — "whenever a
later value is not greater than its predecessor, adding 360° repeatedly"
— with the increment in angular degrees, i.e. what the source's loop
would compute were its increment `360*u.deg` rather than `360*u.deg_C`. -/
def uniquePhaseBumpDeg (pred cur : ℚ) : ℚ :=
  if pred > cur then uniquePhaseBumpDeg pred (cur + 360) else cur
termination_by (⌈(pred - cur) / 360⌉).toNat
decreasing_by
  have h1 : (0 : ℤ) < ⌈(pred - cur) / 360⌉ := by
    rw [Int.lt_ceil]
    push_cast
    exact div_pos (by linarith) (by norm_num)
  have h2 : ⌈(pred - (cur + 360)) / 360⌉ = ⌈(pred - cur) / 360⌉ - 1 := by
    have he : (pred - (cur + 360)) / 360 = (pred - cur) / 360 - 1 := by
      ring
    rw [he, Int.ceil_sub_one]
  omega

/-- Modelled from the spec: the intended (degree-incremented) unwrap of
the whole phase sequence. -/
def uniquePhaseWalkDeg : List ℚ → List ℚ
  | [] => []
  | [x] => [x]
  | x :: y :: rest => x :: uniquePhaseWalkDeg (uniquePhaseBumpDeg x y :: rest)
termination_by l => l.length
decreasing_by simp

/-- Whenever the unwrap loop's body runs at all, it raises: the Celsius
increment cannot be converted to angular degrees. -/
theorem uniquePhaseBump_raises (pred cur : ℚ) (h : pred > cur) :
    uniquePhaseBump pred cur =
      Except.error "UnitConversionError: deg_C and deg are not convertible" := by
  rw [uniquePhaseBump, if_pos h]
  split
  · next e he =>
    simp only [quantityAdd, reduceCtorEq, if_false, Except.error.injEq] at he
    rw [he]
  · next v he =>
    simp [quantityAdd] at he

/-- **C3** (code bug).  On raw phases `[350, 10, 20]` the source's unwrap
loop raises `UnitConversionError` — its increment is `360*u.deg_C`
(degrees Celsius), which astropy cannot add to an angular-degree array —
instead of producing the claimed `[350, 370, 380]`; the intended
degree-incremented walk does produce `[350, 370, 380]`. -/
theorem unique_phase_unwrap_bug :
    uniquePhaseWalk [350, 10, 20] =
      Except.error "UnitConversionError: deg_C and deg are not convertible" ∧
    uniquePhaseWalkDeg [350, 10, 20] = [350, 370, 380] := by
  constructor
  · rw [uniquePhaseWalk]
    rw [uniquePhaseBump_raises 350 10 (by norm_num)]
    rfl
  · rw [uniquePhaseWalkDeg]
    rw [show uniquePhaseBumpDeg 350 10 = 370 by
      rw [uniquePhaseBumpDeg]
      norm_num
      rw [uniquePhaseBumpDeg]
      norm_num]
    rw [uniquePhaseWalkDeg]
    rw [show uniquePhaseBumpDeg 370 20 = 380 by
      rw [uniquePhaseBumpDeg]
      norm_num
      rw [uniquePhaseBumpDeg]
      norm_num]
    rw [uniquePhaseWalkDeg]

/-! ### PhaseAnalyzer.combine and PhaseAnalyzer.lightcurve

The five data arrays are wavelength-bins × exposures; an array is a list
of rows, one per wavelength bin, each row listing that bin's values over
the exposures. -/

/-- Python slice `xs[i:j]` (for non-negative bounds). -/
def pySlice (i j : ℕ) (xs : List α) : List α := (xs.drop i).take (j - i)

/-- The `source == 'noise'` branch of `PhaseAnalyzer.combine`
(analysis.py lines 115–119): `y = self.noise[:, images]**2`,
`N_images = y.shape[1]`, `y = y.sum(axis=1) / N_images**2`,
`return np.sqrt(y)`.  The `noise` flag parameter is accepted but never
consulted in this branch.  (`sqrt` lands in `ℝ`; everything before it is
rational.) -/
noncomputable def combine_noise_branch (noise : List (List ℚ))
    (images : ℕ × ℕ) (noiseFlag : Bool) : List ℝ :=
  let y := noise.map fun row =>
    (pySlice images.1 images.2 row).map fun (v : ℚ) => ((v : ℝ)) ^ 2
  let nImages : ℕ := (y.headD []).length
  y.map fun row => Real.sqrt (row.sum / (nImages : ℝ) ^ 2)

/-- **C4.** For a dataset with `M ≥ N` exposures (rows of length `M`),
the `source='noise'` combine over `images = (0, N)` returns, at each
wavelength bin, `sqrt(Σ_{i<N} noiseᵢ²) / N` — the quadrature / standard
error-of-the-mean value `sqrt(Σ σᵢ² / N²)` over the sliced exposures
`noise[:, 0:N]` — and the `noise` flag argument has no effect in this
branch. -/
theorem combine_noise_quadrature (noise : List (List ℚ)) (N M : ℕ)
    (hN : 1 ≤ N) (hNM : N ≤ M) (hrect : ∀ row ∈ noise, row.length = M)
    (flag : Bool) (k : ℕ) (row : List ℚ)
    (hk : noise[k]? = some row) :
    (combine_noise_branch noise (0, N) flag)[k]? =
      some (Real.sqrt
        (((pySlice 0 N row).map fun (v : ℚ) => ((v : ℝ)) ^ 2).sum) / N) ∧
    combine_noise_branch noise (0, N) true =
      combine_noise_branch noise (0, N) false := by
  refine ⟨?_, rfl⟩
  have hlen : ∀ r ∈ noise, (pySlice 0 N r).length = N := by
    intro r hr
    simp only [pySlice, List.length_take, List.length_drop, hrect r hr]
    omega
  obtain ⟨r0, rest, hcons⟩ : ∃ r0 rest, noise = r0 :: rest := by
    cases noise with
    | nil => simp at hk
    | cons a l => exact ⟨a, l, rfl⟩
  have hrow : row ∈ noise := by
    exact List.getElem?_mem hk
  have hhead : ((noise.map fun r =>
      (pySlice 0 N r).map fun (v : ℚ) => ((v : ℝ)) ^ 2).headD []).length
      = N := by
    subst hcons
    simp only [List.map_cons, List.headD_cons, List.length_map]
    exact hlen r0 (List.mem_cons_self _ _)
  have hsum_nonneg : (0 : ℝ) ≤
      ((pySlice 0 N row).map fun (v : ℚ) => ((v : ℝ)) ^ 2).sum := by
    apply List.sum_nonneg
    intro x hx
    obtain ⟨v, _, hv⟩ := List.mem_map.mp hx
    rw [← hv]
    positivity
  simp only [combine_noise_branch, hhead, List.getElem?_map, hk,
    Option.map_some']
  rw [Real.sqrt_div hsum_nonneg, Real.sqrt_sq (by positivity)]

/-- Witness for `combine_noise_quadrature` on `noise = [[3, 4, 5]]`
(one bin, `M = 3` exposures), combining the first `N = 2`. -/
theorem combine_noise_quadrature_witness :
    (combine_noise_branch [[3, 4, 5]] (0, 2) true)[0]? =
      some (Real.sqrt
        (((pySlice 0 2 ([3, 4, 5] : List ℚ)).map
          fun (v : ℚ) => ((v : ℝ)) ^ 2).sum) / (2 : ℕ)) ∧
    combine_noise_branch [[3, 4, 5]] (0, 2) true =
      combine_noise_branch [[3, 4, 5]] (0, 2) false :=
  combine_noise_quadrature [[3, 4, 5]] 2 3 (by norm_num) (by norm_num)
    (by simp) true 0 [3, 4, 5] rfl

/-- The `normalize` argument of `PhaseAnalyzer.lightcurve`: an exposure
index, the literal `'max'`, or the default `'none'`. -/
inductive Normalize where
  | idx (n : ℕ)
  | maxVal
  | noneVal
deriving DecidableEq, Repr

/-- `PhaseAnalyzer.lightcurve` for a single-pixel spectral index
(analysis.py lines 90–101; the tuple-pixel averaging path is not touched
by the claims and is not modelled).  The Gaussian draw used when
`noise=True` is passed in as `noiseSample` (randomness as an oracle
input).  `Option.none` models the `IndexError` on an out-of-range pixel
or normalization index. -/
def lightcurve (data : List (List ℚ)) (pixel : ℕ)
    (normalize : Normalize) (noise : Bool) (noiseSample : List ℚ) :
    Option (List ℚ) :=
  match data[pixel]? with
  | Option.none => Option.none
  | Option.some y0 =>
    let y := if noise then List.zipWith (· + ·) y0 noiseSample else y0
    match normalize with
    | Normalize.idx n =>
      match y[n]? with
      | Option.none => Option.none
      | Option.some yn => Option.some (y.map (· / yn))
    | Normalize.maxVal => Option.some (y.map (· / (y.max?.getD 0)))
    | Normalize.noneVal => Option.some y

/-- **C7.** For any data array, spectral bin `k` with non-zero flux, and
noise disabled, `lightcurve(source, pixel=k, normalize=0)` divides every
value by the value at exposure 0, so the returned series has value
exactly `1` at exposure 0. -/
theorem lightcurve_normalize_epoch0 (data : List (List ℚ)) (k : ℕ)
    (y ns : List ℚ) (hy : data[k]? = some y) (hne : y ≠ [])
    (hnz : ∀ v ∈ y, v ≠ 0) :
    ∃ out, lightcurve data k (Normalize.idx 0) false ns = some out ∧
      out[0]? = some 1 := by
  obtain ⟨v0, rest, hcons⟩ : ∃ v0 rest, y = v0 :: rest := by
    cases y with
    | nil => exact absurd rfl hne
    | cons a l => exact ⟨a, l, rfl⟩
  refine ⟨y.map (· / v0), ?_, ?_⟩
  · simp [lightcurve, hy, hcons]
  · have hv0 : v0 ≠ 0 := hnz v0 (by simp [hcons])
    simp [hcons, div_self hv0]

/-- Witness for `lightcurve_normalize_epoch0` on `data = [[2, 4]]`,
`k = 0`. -/
theorem lightcurve_normalize_epoch0_witness :
    ∃ out, lightcurve [[2, 4]] 0 (Normalize.idx 0) false [] = some out ∧
      out[0]? = some 1 :=
  lightcurve_normalize_epoch0 [[2, 4]] 0 [2, 4] [] rfl (by simp)
    (by
      intro v hv
      rcases List.mem_cons.mp hv with h | h
      · rw [h]; norm_num
      · rcases List.mem_cons.mp h with h2 | h2
        · rw [h2]; norm_num
        · simp at h2)

/-! ## VSPEC/params/read.py — Header

Quantities are abstracted to their Kelvin values; `data_path` to a
string.  `None`-able Python attributes become `Option`. -/

/-- The constructed `Header` object (read.py lines 45–57). -/
structure Header where
  data_path : String
  teff_min : ℚ
  teff_max : ℚ
  seed : Option Int
  desc : Option String
deriving DecidableEq, Repr

/-- An argument assignment for a call of `Header.__init__`.  The outer
`Option` on `seed` and `desc` records whether the caller supplied the
argument at all; the inner `Option` is the Python value (`None` or not). -/
structure HeaderCallArgs where
  data_path : String
  teff_min : ℚ
  teff_max : ℚ
  seed : Option (Option Int)
  desc : Option (Option String)
deriving DecidableEq, Repr

/-- Python call semantics for `Header.__init__(self, data_path, teff_min,
teff_max, seed: int, desc: str = None)`: `desc` has a default (`None`)
and may be omitted, while `seed` has **no** default in the source — a
call that omits it raises `TypeError` before any object is built. -/
def headerInit (args : HeaderCallArgs) : Except String Header :=
  match args.seed with
  | Option.none =>
    Except.error "TypeError: __init__ missing 1 required positional argument: seed"
  | Option.some seed =>
    Except.ok
      { data_path := args.data_path
        teff_min := args.teff_min
        teff_max := args.teff_max
        seed := seed
        desc := args.desc.getD Option.none }

/-- The mapping handed to `Header._from_dict`: `data_path`, `teff_min`
and `teff_max` are required keys (a `KeyError` on those is outside the
claims); `d.get('seed', None)` and `d.get('desc', None)` model the
optional keys. -/
structure HeaderDict where
  data_path : String
  teff_min : ℚ
  teff_max : ℚ
  seed : Option Int
  desc : Option String
deriving DecidableEq, Repr

/-- `Header._from_dict` (read.py lines 58–66): passes
`None if d.get('seed', None) is None else int(d.get('seed', None))` —
i.e. coerces `seed` with `int(...)` only when the key is present — and
always supplies the `seed` argument (possibly as `None`). -/
def header_from_dict (d : HeaderDict) : Except String Header :=
  headerInit
    { data_path := d.data_path
      teff_min := d.teff_min
      teff_max := d.teff_max
      seed := Option.some
        (match d.seed with
         | Option.none => Option.none
         | Option.some v => Option.some v)
      desc := Option.some
        (match d.desc with
         | Option.none => Option.none
         | Option.some s => Option.some s) }

/-- **C6** (code bug).  The claim (and the class's own docstring
`seed : int, default=None`) says a `Header` can be constructed without
supplying `seed`; in the source `__init__` gives `seed` no default, so
such a call raises `TypeError`.  The `from_dict` half of the claim does
hold: a mapping without a `seed` key yields `seed = None`, and an
integer value is passed through. -/
theorem header_seed_required :
    headerInit
      { data_path := ".", teff_min := 2300, teff_max := 3900,
        seed := Option.none, desc := Option.none } =
      Except.error "TypeError: __init__ missing 1 required positional argument: seed" ∧
    header_from_dict
      { data_path := ".", teff_min := 2300, teff_max := 3900,
        seed := Option.none, desc := Option.none } =
      Except.ok
        { data_path := ".", teff_min := 2300, teff_max := 3900,
          seed := Option.none, desc := Option.none } ∧
    header_from_dict
      { data_path := ".", teff_min := 2300, teff_max := 3900,
        seed := Option.some 24, desc := Option.none } =
      Except.ok
        { data_path := ".", teff_min := 2300, teff_max := 3900,
          seed := Option.some 24, desc := Option.none } :=
  ⟨rfl, rfl, rfl⟩

end VSPCA
